import Mathlib

/-!
Shallow embedding of the field mapping/codec layer of openSprinkler.py
(the pyOpenSprinklerRest repository) together with theorems settling the
specification claims about it.

Modelling conventions:
- Python datetimes are modelled as integer epoch seconds (sub-second
  precision is ignored; every quantity the claims mention is a whole
  number of seconds or minutes).
- JSON wire values are either integers or strings (the only shapes the
  decoded fields use).
- Python exceptions are modelled as explicit error constructors of the
  result type: a dict subscript on an absent key is a KeyError, applying
  int() to a dict is a TypeError, and so on.
- Python truthiness (the `not x` test in RainDelaySet) is modelled by
  py_truthy over a small universe PyVal of the Python values that can
  reach the encode path: None, ints, datetimes and dicts.
-/

/-- STATUS_SUCCESS constant from the source. -/
def STATUS_SUCCESS : Int := 1

/-- The STATUS_CODES table from the source, as an association list from
result code to human-readable message. -/
def STATUS_CODES : List (Int × String) :=
  [(1, "Success"),
   (2, "Unauthorized (e.g. missing password or password is incorrect)"),
   (3, "Mismatch (e.g. new password and confirmation password do not match)"),
   (16, "Data Missing (e.g. missing required parameters)"),
   (17, "Out of Range (e.g. value exceeds the acceptable range)"),
   (18, "Data Format Error (e.g. provided data does not match required format)"),
   (19, "RF code error (e.g. RF code does not match required format)"),
   (32, "Page Not Found (e.g. page not found or requested file missing)"),
   (48, "Not Permitted (e.g. cannot operate on the requested station)")]

/-- Looking a code up in STATUS_CODES. In Python this is the dict
subscript STATUS_CODES[code]; a result of Option.none models the
KeyError raised when the code is absent from the table. -/
def statusLookup (code : Int) : Option String :=
  (STATUS_CODES.find? (fun p => p.1 == code)).map Prod.snd

/-- Outcome of the result-envelope check performed by
OpenSprinkler._json_get after a response arrives: either the document is
accepted, or the HTTP status is non-200 (ValueError), or the envelope
carries a failing result code found in STATUS_CODES (ValueError carrying
the code and the table message), or the failing code is absent from
STATUS_CODES and the table subscript itself raises KeyError. -/
inductive JsonGetOutcome
  | ok
  | valueErrorHttp (status : Nat)
  | deviceError (code : Int) (msg : String)
  | keyError (code : Int)
  deriving DecidableEq, Repr

/-- The response-checking logic of OpenSprinkler._json_get: reject a
non-200 HTTP status, then, when the JSON envelope has a result field,
reject any value other than STATUS_SUCCESS, fetching the message with
STATUS_CODES[result] (which raises KeyError for codes outside the
table). -/
def json_get_check (status : Nat) (result : Option Int) : JsonGetOutcome :=
  if status ≠ 200 then .valueErrorHttp status
  else
    match result with
    | Option.none => .ok
    | Option.some r =>
      if r ≠ STATUS_SUCCESS then
        match statusLookup r with
        | Option.some msg => .deviceError r msg
        | Option.none => .keyError r
      else .ok

/-- Stations from the source: an 8-element tuple whose i-th element is
stat & (1 << i). Note the elements are integers, not booleans. -/
def Stations (stat : Nat) : List Nat :=
  (List.range 8).map (fun i => stat &&& (1 <<< i))

/-- IPAddress from the source: format the four bytes of a packed 32-bit
integer as a dotted-quad decimal string, high byte first. -/
def IPAddress (ip : Nat) : String :=
  toString (ip >>> 24) ++ "." ++ toString ((ip >>> 16) &&& 0xFF) ++ "." ++
    toString ((ip >>> 8) &&& 0xFF) ++ "." ++ toString (ip &&& 0xFF)

/-- Today's local midnight in epoch seconds, given the current time in
epoch seconds: the source computes now.replace(hour=0, minute=0,
second=0, microsecond=0), i.e. strips the seconds elapsed since
midnight. -/
def midnightOf (nowSec : Nat) : Int :=
  (nowSec : Int) - ((nowSec % 86400 : Nat) : Int)

/-- SunTime from the source: 0 decodes to None; otherwise the result is
midnight today plus one day minus the given number of minutes, in epoch
seconds. -/
def SunTime (minutes : Nat) (nowSec : Nat) : Option Int :=
  if minutes = 0 then Option.none
  else Option.some (midnightOf nowSec + 86400 - (minutes : Int) * 60)

/-- The Python values that can reach the encode path of the set
descriptors: None, an integer, a datetime (epoch seconds) or a dict. -/
inductive PyVal
  | none
  | int (n : Int)
  | datetime (epochSec : Int)
  | dict (entries : List (String × PyVal))

/-- Python truthiness for PyVal: None is falsy, an integer is truthy iff
nonzero, a datetime is always truthy, a dict is truthy iff nonempty. -/
def py_truthy : PyVal → Bool
  | PyVal.none => false
  | PyVal.int n => n != 0
  | PyVal.datetime _ => true
  | PyVal.dict entries => !entries.isEmpty

/-- The Python builtin int applied to a PyVal; Option.none models the
TypeError raised on None, datetimes and dicts. -/
def py_int : PyVal → Option Int
  | PyVal.int n => Option.some n
  | _ => Option.none

/-- RainDelaySet from the source: a falsy argument encodes to 0;
otherwise the argument must be a datetime and the result is
int((dt - now).total_seconds() / 60), i.e. the seconds until dt divided
by 60 with truncation toward zero (Int.tdiv). Option.none models the
TypeError raised when a truthy non-datetime is subtracted from now. -/
def RainDelaySet (nowSec : Int) (dt : PyVal) : Option Int :=
  if py_truthy dt = false then Option.some 0
  else
    match dt with
    | PyVal.datetime t => Option.some (Int.tdiv (t - nowSec) 60)
    | _ => Option.none

/-- The decode transform named by a FieldGetDescriptor. -/
inductive GetKind
  | osDateTime
  | asInt
  | asBool
  | asStr
  | sunTime
  | ipAddr
  | stations
  | nop
  deriving DecidableEq, Repr

/-- The encode transform named by a FieldSetDescriptor. -/
inductive SetKind
  | asInt
  | rainDelay
  deriving DecidableEq, Repr

/-- A JSON-native wire value from the device: the decoded fields only
use integers and strings. Device integers are non-negative. -/
inductive Wire
  | int (n : Nat)
  | str (s : String)
  deriving DecidableEq, Repr

/-- A decoded typed field value: an epoch date-time, an integer, a
boolean, a string, a clock time or absent (SunTime result), the
station-status tuple, or a raw pass-through wire value. -/
inductive TypedField
  | time (epochSec : Int)
  | int (n : Int)
  | bool (b : Bool)
  | str (s : String)
  | clock (t : Option Int)
  | stations (elems : List Nat)
  | raw (w : Wire)
  deriving DecidableEq, Repr

/-- FieldGetDescriptor from the source: a wire tag paired with a decode
transform. -/
structure FieldGetDescriptor where
  tag : String
  kind : GetKind
  deriving DecidableEq, Repr

/-- FieldSetDescriptor from the source: a wire tag paired with an encode
transform. -/
structure FieldSetDescriptor where
  tag : String
  kind : SetKind
  deriving DecidableEq, Repr

/-- Applying a decode transform to a wire value. Option.none models a
Python TypeError on a value of the wrong shape. SunTime reads the clock,
so the current time is passed explicitly. -/
def decodeKind (kind : GetKind) (nowSec : Nat) (w : Wire) : Option TypedField :=
  match kind, w with
  | GetKind.osDateTime, Wire.int n => Option.some (TypedField.time n)
  | GetKind.asInt, Wire.int n => Option.some (TypedField.int n)
  | GetKind.asBool, Wire.int n => Option.some (TypedField.bool (n != 0))
  | GetKind.asStr, Wire.int n => Option.some (TypedField.str (toString n))
  | GetKind.asStr, Wire.str s => Option.some (TypedField.str s)
  | GetKind.sunTime, Wire.int n => Option.some (TypedField.clock (SunTime n nowSec))
  | GetKind.ipAddr, Wire.int n => Option.some (TypedField.str (IPAddress n))
  | GetKind.stations, Wire.int n => Option.some (TypedField.stations (Stations n))
  | GetKind.nop, w => Option.some (TypedField.raw w)
  | _, _ => Option.none

/-- Applying an encode transform to a Python value. Option.none models a
Python TypeError. -/
def encodeKind (kind : SetKind) (nowSec : Int) (v : PyVal) : Option Int :=
  match kind with
  | SetKind.asInt => py_int v
  | SetKind.rainDelay => RainDelaySet nowSec v

/-- Errors of the get path: the wire tag is absent from the fetched
document (Python KeyError on data[tag] — the MissingKey condition of the
spec), or the decode transform received a value of the wrong shape
(Python TypeError). -/
inductive GetError
  | keyError (tag : String)
  | typeError
  deriving DecidableEq, Repr

/-- FieldGetDescriptor.getAsType from the source: subscript the fetched
document with the wire tag (KeyError when absent), then apply the decode
transform. -/
def getAsType (d : FieldGetDescriptor) (nowSec : Nat) (data : List (String × Wire)) :
    Except GetError TypedField :=
  match data.lookup d.tag with
  | Option.none => Except.error (GetError.keyError d.tag)
  | Option.some w =>
    match decodeKind d.kind nowSec w with
    | Option.none => Except.error GetError.typeError
    | Option.some v => Except.ok v

/-- Python dict assignment d[k] = v on an association list: replace the
value when the key is present, append otherwise. -/
def dictSet (d : List (String × PyVal)) (k : String) (v : PyVal) : List (String × PyVal) :=
  if d.any (fun p => p.1 == k) then d.map (fun p => if p.1 == k then (k, v) else p)
  else d ++ [(k, v)]

/-- FieldSetDescriptor.setAsType from the source, verbatim: it executes
data[self._tag] = self._type(data), i.e. the encode transform is applied
to the payload dict itself (not to any caller-supplied value) and the
result is stored under the wire tag. Option.none models the TypeError
the transform may raise. -/
def setAsType (d : FieldSetDescriptor) (nowSec : Int) (data : List (String × PyVal)) :
    Option (List (String × PyVal)) :=
  (encodeKind d.kind nowSec (PyVal.dict data)).map (fun n => dictSet data d.tag (PyVal.int n))

/-- The my_get_args registry of Controller: logical name to get
descriptor. -/
def my_get_args : List (String × FieldGetDescriptor) :=
  [("device_time", ⟨"devt", GetKind.osDateTime⟩),
   ("board_count", ⟨"nbrd", GetKind.asInt⟩),
   ("enable", ⟨"en", GetKind.asBool⟩),
   ("rain_delay", ⟨"rd", GetKind.asBool⟩),
   ("rain_sensor", ⟨"rs", GetKind.asBool⟩),
   ("rain_resume", ⟨"rdst", GetKind.asStr⟩),
   ("location", ⟨"loc", GetKind.asStr⟩),
   ("weather_id", ⟨"wtkey", GetKind.asStr⟩),
   ("sunrise", ⟨"sunrise", GetKind.sunTime⟩),
   ("sunset", ⟨"sunset", GetKind.sunTime⟩),
   ("external_ip", ⟨"eip", GetKind.ipAddr⟩),
   ("last_weather", ⟨"lwc", GetKind.osDateTime⟩),
   ("last_good_weather", ⟨"lswc", GetKind.osDateTime⟩),
   ("station_status", ⟨"sbits", GetKind.stations⟩),
   ("program_status", ⟨"ps", GetKind.nop⟩),
   ("last_run", ⟨"lrun", GetKind.nop⟩)]

/-- The my_set_args registry of Controller: logical name to set
descriptor. -/
def my_set_args : List (String × FieldSetDescriptor) :=
  [("reset_all", ⟨"rsn", SetKind.asInt⟩),
   ("reboot", ⟨"rbt", SetKind.asInt⟩),
   ("enable", ⟨"en", SetKind.asInt⟩),
   ("rain_delay", ⟨"rd", SetKind.rainDelay⟩),
   ("remote_extension", ⟨"re", SetKind.asInt⟩)]

/-- The mutable per-instance state of a Controller object: its instance
dictionary (the attributes stored by object.__setattr__). The class
attributes (my_get_args, my_set_args, the methods) are static and not
part of this state. -/
structure ControllerState where
  attrs : List (String × PyVal)

/-- Effect of one attribute assignment on a Controller: either a payload
was submitted to the command endpoint via _json_get, or the value was
stored as an ordinary instance attribute, or the encode transform raised
TypeError. -/
inductive SetEffect
  | submitted (payload : List (String × PyVal))
  | stored
  | typeError

/-- Controller.__setattr__ from the source: when the name is in
my_set_args, build an empty payload dict, run setAsType on it (the
assigned value is never consulted), and submit the payload; otherwise
fall through to object.__setattr__, storing the value in the instance
dictionary. -/
def controller_setattr (st : ControllerState) (name : String) (value : PyVal)
    (nowSec : Int) : ControllerState × SetEffect :=
  match my_set_args.lookup name with
  | Option.some d =>
    match setAsType d nowSec [] with
    | Option.some payload => (st, SetEffect.submitted payload)
    | Option.none => (st, SetEffect.typeError)
  | Option.none => ({ attrs := dictSet st.attrs name value }, SetEffect.stored)

/-- Result of one attribute read on a Controller: the value came from
the instance dictionary (no device interaction), or the name resolved
through my_get_args and a fresh document was fetched and decoded, or the
name was unknown and __getattr__ fell off its end, so Python returns
None. -/
inductive GetResult
  | stored (v : PyVal)
  | fetched (r : Except GetError TypedField)
  | noneDefault

/-- An attribute read on a Controller: Python consults the instance
dictionary first; only when the name is not found there (and is not a
class attribute, which none of the registry names are) does
Controller.__getattr__ run, resolving the name in my_get_args, fetching
the status document and decoding the tagged entry; an unknown name makes
__getattr__ return None implicitly. The fetched document is passed
explicitly. -/
def controller_getattr (st : ControllerState) (name : String) (nowSec : Nat)
    (doc : List (String × Wire)) : GetResult :=
  match st.attrs.lookup name with
  | Option.some v => GetResult.stored v
  | Option.none =>
    match my_get_args.lookup name with
    | Option.some d => GetResult.fetched (getAsType d nowSec doc)
    | Option.none => GetResult.noneDefault

/-! Theorems settling the claims. -/

/-- C1 counterexample: the claim says decoding 5 as station_status
yields the boolean tuple (true, false, true, false, false, false,
false, false). Python booleans compare equal to the integers 1 and 0,
so that tuple is (1, 0, 1, 0, 0, 0, 0, 0); the code instead yields
(1, 0, 4, 0, 0, 0, 0, 0), whose third element is the integer 4, not a
boolean, so the claimed tuple of booleans is not what the code
returns. -/
theorem C1_claim_counterexample :
    Stations 5 = [1, 0, 4, 0, 0, 0, 0, 0] ∧
    Stations 5 ≠ [1, 0, 1, 0, 0, 0, 0, 0] := by
  decide

/-- C1 amended: for every m in [0, 255], decoding m as station_status
yields a tuple of exactly 8 integers in which element i equals
m AND (1 shifted left by i), hence is nonzero (truthy) exactly when bit
i (0 = LSB) of m is set, and re-packing the tuple as the sum over i of
the truthiness bit of element i shifted left by i recovers m exactly;
in particular decoding 5 yields (1, 0, 4, 0, 0, 0, 0, 0). -/
theorem C1_station_status_roundtrip (m : Nat) (h : m < 256) :
    (Stations m).length = 8 ∧
    (∀ i, i < 8 → (((Stations m).getD i 0 ≠ 0) ↔ m.testBit i = true)) ∧
    ((List.range 8).map
      (fun i => (if (Stations m).getD i 0 ≠ 0 then 1 else 0) <<< i)).sum = m ∧
    Stations 5 = [1, 0, 4, 0, 0, 0, 0, 0] := by
  revert m
  set_option maxRecDepth 8192 in decide

/-- C1 witness: the amended round-trip property evaluated at m = 5. -/
theorem C1_station_status_roundtrip_witness :
    ((List.range 8).map
      (fun i => (if (Stations 5).getD i 0 ≠ 0 then 1 else 0) <<< i)).sum = 5 :=
  (C1_station_status_roundtrip 5 (by decide)).2.2.1

/-- C2: the code contradicts the claim. Controller.__setattr__ builds an
empty payload dict and setAsType applies the encode transform to that
dict, never to the assigned value: whatever value is assigned to
rain_delay, the submitted payload is always the dict mapping rd to 0
(the empty dict is falsy, so RainDelaySet returns 0), and assigning to
the int-encoded fields enable and reboot raises TypeError because
int() is applied to a dict. The result never depends on the assigned
value. -/
theorem C2_set_ignores_value (st : ControllerState) (v w : PyVal) (nowSec : Int) :
    (controller_setattr st "rain_delay" v nowSec).2 =
      SetEffect.submitted [("rd", PyVal.int 0)] ∧
    (controller_setattr st "enable" v nowSec).2 = SetEffect.typeError ∧
    (controller_setattr st "reboot" v nowSec).2 = SetEffect.typeError ∧
    controller_setattr st "rain_delay" v nowSec =
      controller_setattr st "rain_delay" w nowSec := by
  exact ⟨rfl, rfl, rfl, rfl⟩

/-- C3: behavior of the code on a logical name absent from both
registries. Reading it makes __getattr__ fall off its end, so Python
returns None rather than raising anything; assigning to it stores the
value as an ordinary instance attribute. No NotFound error exists in
the source. -/
theorem C3_unknown_name_behavior :
    controller_getattr ⟨[]⟩ "bogus" 0 [] = GetResult.noneDefault ∧
    (controller_setattr ⟨[]⟩ "bogus" (PyVal.int 7) 0).2 = SetEffect.stored ∧
    (controller_setattr ⟨[]⟩ "bogus" (PyVal.int 7) 0).1.attrs =
      [("bogus", PyVal.int 7)] := by
  exact ⟨rfl, rfl, rfl⟩

/-- C4 counterexample: the claim says a result code absent from the
table is reported as an unknown error code without crashing the
lookup. In the source the message is fetched with the dict subscript
STATUS_CODES[result], which raises KeyError for the out-of-table code
99, so the call dies with KeyError instead of a DeviceError-style
failure. -/
theorem C4_unknown_code_counterexample :
    statusLookup 99 = Option.none ∧
    json_get_check 200 (Option.some 99) = JsonGetOutcome.keyError 99 := by
  exact ⟨rfl, rfl⟩

/-- C4 amended: for every response envelope whose integer result code r
differs from 1 and is present in STATUS_CODES, the call fails carrying
r and the table message (result 2 yields the message "Unauthorized
(e.g. missing password or password is incorrect)"); for every code
absent from the table, the message lookup itself raises KeyError. -/
theorem C4_device_error_codes (r : Int) (msg : String)
    (hr : r ≠ STATUS_SUCCESS) (hm : statusLookup r = Option.some msg) :
    json_get_check 200 (Option.some r) = JsonGetOutcome.deviceError r msg ∧
    json_get_check 200 (Option.some 2) =
      JsonGetOutcome.deviceError 2
        "Unauthorized (e.g. missing password or password is incorrect)" ∧
    (∀ c : Int, statusLookup c = Option.none →
      json_get_check 200 (Option.some c) = JsonGetOutcome.keyError c) := by
  refine ⟨?_, rfl, ?_⟩
  · unfold json_get_check
    simp [hr, hm]
  · intro c hc
    have hc1 : c ≠ STATUS_SUCCESS := by
      intro h
      rw [h] at hc
      simp [statusLookup, STATUS_CODES, STATUS_SUCCESS] at hc
    unfold json_get_check
    simp [hc1, hc]

/-- C4 witness: the amended statement evaluated at result code 2. -/
theorem C4_device_error_codes_witness :
    json_get_check 200 (Option.some 2) =
      JsonGetOutcome.deviceError 2
        "Unauthorized (e.g. missing password or password is incorrect)" :=
  (C4_device_error_codes 2
    "Unauthorized (e.g. missing password or password is incorrect)"
    (by decide) rfl).1

/-- C5: the rain_delay encode transform maps a falsy resume value
(None, or the integer 0) to 0, and maps a resume datetime t to the
seconds until t divided by 60 with truncation toward zero: for future
times this is the ordinary floor division of the nonnegative second
count, for past times it is minus the floor division of the positive
distance (rounding toward zero), and a resume time exactly 90 minutes
in the future encodes to exactly 90. -/
theorem C5_rain_delay_encode (nowSec t : Int) (hfut : nowSec ≤ t) :
    RainDelaySet nowSec PyVal.none = Option.some 0 ∧
    RainDelaySet nowSec (PyVal.int 0) = Option.some 0 ∧
    RainDelaySet nowSec (PyVal.datetime t) =
      Option.some (Int.tdiv (t - nowSec) 60) ∧
    Int.tdiv (t - nowSec) 60 = (t - nowSec) / 60 ∧
    RainDelaySet nowSec (PyVal.datetime (nowSec + 90 * 60)) = Option.some 90 ∧
    (∀ s : Int, RainDelaySet nowSec (PyVal.datetime s) =
      Option.some (-(Int.tdiv (nowSec - s) 60))) := by
  refine ⟨rfl, rfl, rfl, ?_, ?_, ?_⟩
  · exact Int.tdiv_eq_ediv (by omega) (by omega)
  · show Option.some (Int.tdiv (nowSec + 90 * 60 - nowSec) 60) = Option.some 90
    have h1 : nowSec + 90 * 60 - nowSec = 5400 := by ring
    rw [h1]
    decide
  · intro s
    show Option.some (Int.tdiv (s - nowSec) 60) =
      Option.some (-(Int.tdiv (nowSec - s) 60))
    have h1 : s - nowSec = -(nowSec - s) := by ring
    rw [h1, Int.neg_tdiv]

/-- C5 witness: the encode transform evaluated at now = 0 with a resume
time 90 minutes (5400 seconds) later. -/
theorem C5_rain_delay_encode_witness :
    RainDelaySet 0 (PyVal.datetime (0 + 90 * 60)) = Option.some 90 :=
  (C5_rain_delay_encode 0 5400 (by decide)).2.2.2.2.1

/-- C6: the sunrise/sunset decode maps input 0 to an absent result, and
for every nonzero minutes value N yields the absolute time equal to
today's midnight plus 24 hours minus N minutes; in particular input
360 yields a time exactly 6 hours before the next midnight boundary
relative to the current time. -/
theorem C6_sun_time (nowSec N : Nat) (hN : N ≠ 0) :
    SunTime 0 nowSec = Option.none ∧
    SunTime N nowSec =
      Option.some (midnightOf nowSec + 24 * 3600 - (N : Int) * 60) ∧
    SunTime 360 nowSec = Option.some ((midnightOf nowSec + 86400) - 6 * 3600) := by
  refine ⟨rfl, ?_, ?_⟩
  · unfold SunTime
    rw [if_neg hN]
    norm_num
  · unfold SunTime
    norm_num

/-- C6 witness: the sunrise/sunset decode evaluated at a concrete
current time (epoch second 100000) and N = 360. -/
theorem C6_sun_time_witness :
    SunTime 360 100000 = Option.some ((midnightOf 100000 + 86400) - 6 * 3600) :=
  (C6_sun_time 100000 360 (by decide)).2.2

/-- C7: for every 32-bit integer ip, the external_ip decode yields the
dotted-quad string whose four components are, in order, ip shifted
right 24 bits, then the next two bytes, then the low byte, each below
256, and re-packing the four components recovers ip; in particular
0x0A0B0C0D decodes to the string 10.11.12.13, 0 to 0.0.0.0, and
0xFFFFFFFF to 255.255.255.255. -/
theorem C7_external_ip (ip : Nat) (h : ip < 2 ^ 32) :
    IPAddress ip =
      toString (ip >>> 24) ++ "." ++ toString ((ip >>> 16) &&& 0xFF) ++ "." ++
        toString ((ip >>> 8) &&& 0xFF) ++ "." ++ toString (ip &&& 0xFF) ∧
    (ip >>> 24 < 256 ∧ (ip >>> 16) &&& 0xFF < 256 ∧
      (ip >>> 8) &&& 0xFF < 256 ∧ ip &&& 0xFF < 256) ∧
    (ip >>> 24) * 2 ^ 24 + ((ip >>> 16) &&& 0xFF) * 2 ^ 16 +
      ((ip >>> 8) &&& 0xFF) * 2 ^ 8 + (ip &&& 0xFF) = ip ∧
    IPAddress 0x0A0B0C0D = "10.11.12.13" ∧
    IPAddress 0 = "0.0.0.0" ∧
    IPAddress 0xFFFFFFFF = "255.255.255.255" := by
  have hmask : ∀ x : Nat, x &&& 0xFF = x % 256 := fun x =>
    Nat.and_pow_two_sub_one_eq_mod x 8
  have h24 : ip >>> 24 = ip / 2 ^ 24 := Nat.shiftRight_eq_div_pow ip 24
  have h16 : ip >>> 16 = ip / 2 ^ 16 := Nat.shiftRight_eq_div_pow ip 16
  have h8 : ip >>> 8 = ip / 2 ^ 8 := Nat.shiftRight_eq_div_pow ip 8
  refine ⟨rfl, ⟨?_, ?_, ?_, ?_⟩, ?_, by decide, by decide, by decide⟩
  · rw [h24]
    omega
  · rw [hmask]
    omega
  · rw [hmask]
    omega
  · rw [hmask]
    omega
  · rw [h24, hmask, hmask, hmask, h16, h8]
    omega

/-- C7 witness: the external_ip decode evaluated at ip = 0x0A0B0C0D. -/
theorem C7_external_ip_witness : IPAddress 0x0A0B0C0D = "10.11.12.13" :=
  (C7_external_ip 0x0A0B0C0D (by norm_num)).2.2.2.1

/-- C8: for every get of a registered logical name that is not shadowed
by a stored instance attribute, when the fetched document does not
contain the descriptor's wire key, the attribute read fails with the
key-absent error (Python KeyError, the MissingKey condition of the
spec) rather than returning any value. -/
theorem C8_missing_wire_key (st : ControllerState) (name : String)
    (d : FieldGetDescriptor) (nowSec : Nat) (doc : List (String × Wire))
    (hattr : st.attrs.lookup name = Option.none)
    (hreg : my_get_args.lookup name = Option.some d)
    (hdoc : doc.lookup d.tag = Option.none) :
    controller_getattr st name nowSec doc =
      GetResult.fetched (Except.error (GetError.keyError d.tag)) := by
  unfold controller_getattr getAsType
  simp only [hattr, hreg, hdoc]

/-- C8 witness: reading board_count from a controller with no stored
attributes when the fetched document is empty fails with KeyError on
the wire key nbrd. -/
theorem C8_missing_wire_key_witness :
    controller_getattr ⟨[]⟩ "board_count" 0 [] =
      GetResult.fetched (Except.error (GetError.keyError "nbrd")) :=
  C8_missing_wire_key ⟨[]⟩ "board_count" ⟨"nbrd", GetKind.asInt⟩ 0 [] rfl rfl rfl

/-- C9: assigning to any name in the Set registry leaves the instance
dictionary unchanged (the value is never stored on the Controller);
the name enable is in both registries, and after an assignment to
enable a subsequent read (with enable not stored) still resolves
through the Get registry with a fresh device fetch; assigning to a
name outside the Set registry stores it as an ordinary instance
attribute. -/
theorem C9_setattr_frame (st : ControllerState) (name : String) (v : PyVal)
    (nowI : Int) (nowN : Nat) (doc : List (String × Wire))
    (henb : st.attrs.lookup "enable" = Option.none) :
    ((my_set_args.lookup name).isSome = true →
      (controller_setattr st name v nowI).1 = st) ∧
    (my_set_args.lookup "enable").isSome = true ∧
    (my_get_args.lookup "enable").isSome = true ∧
    controller_getattr (controller_setattr st "enable" v nowI).1 "enable" nowN doc =
      GetResult.fetched (getAsType ⟨"en", GetKind.asBool⟩ nowN doc) ∧
    (my_set_args.lookup name = Option.none →
      controller_setattr st name v nowI =
        ({ attrs := dictSet st.attrs name v }, SetEffect.stored)) := by
  refine ⟨?_, rfl, rfl, ?_, ?_⟩
  · intro hs
    unfold controller_setattr
    rcases hd : my_set_args.lookup name with _ | d
    · rw [hd] at hs
      simp at hs
    · rcases hp : setAsType d nowI [] with _ | p
      · simp only [hp]
      · simp only [hp]
  · have h1 : (controller_setattr st "enable" v nowI).1 = st := rfl
    rw [h1]
    unfold controller_getattr
    rw [henb]
    rfl
  · intro hn
    unfold controller_setattr
    rw [hn]

/-- C9 witness: assigning the integer 1 to reboot on a controller with
an empty instance dictionary leaves the instance dictionary empty. -/
theorem C9_setattr_frame_witness :
    (controller_setattr ⟨[]⟩ "reboot" (PyVal.int 1) 0).1 = ⟨[]⟩ :=
  (C9_setattr_frame ⟨[]⟩ "reboot" (PyVal.int 1) 0 0 [] rfl).1 rfl

/-- C10: for every nonnegative integer m, including values of 256 and
above, the station-status decode returns a tuple of exactly 8 elements
that agrees with the decode of m mod 256, so bits above bit 7 are
ignored. -/
theorem C10_stations_mod256 (m : Nat) :
    (Stations m).length = 8 ∧ Stations m = Stations (m % 256) := by
  constructor
  · simp [Stations]
  · unfold Stations
    apply List.map_congr_left
    intro i hi
    have hi8 : i < 8 := List.mem_range.mp hi
    have h1 : (1 : Nat) <<< i = 2 ^ i := by
      simp [Nat.shiftLeft_eq]
    rw [h1, Nat.and_two_pow, Nat.and_two_pow]
    have h2 : (m % 256).testBit i = m.testBit i := by
      have h256 : (256 : Nat) = 2 ^ 8 := by norm_num
      rw [h256, Nat.testBit_mod_two_pow]
      simp [hi8]
    rw [h2]

/-- C2 witness: assigning a datetime 90 minutes past the epoch to
rain_delay still submits the payload mapping rd to 0. -/
theorem C2_set_ignores_value_witness :
    (controller_setattr ⟨[]⟩ "rain_delay" (PyVal.datetime 5400) 0).2 =
      SetEffect.submitted [("rd", PyVal.int 0)] :=
  (C2_set_ignores_value ⟨[]⟩ (PyVal.datetime 5400) (PyVal.int 3) 0).1

/-- C10 witness: the station-status decode of 261 agrees with the
decode of 261 mod 256 and has 8 elements. -/
theorem C10_stations_mod256_witness :
    (Stations 261).length = 8 ∧ Stations 261 = Stations (261 % 256) :=
  C10_stations_mod256 261
